import Mathlib

/-
Verification of the MedConscious speech-capture lifecycle and voice screen.

The repository ships three variants of `src/hooks/useSpeechRecognition.ts`
(separated by related-doc markers) and two variants of
`src/screens/VoiceScreen.tsx`.  Each variant is embedded in its own
namespace, translated line by line from the TypeScript source:

* `HookV1`   — first hook variant (lines 1-424): web speech recognition plus
  MediaRecorder audio capture; the provider chain (expo, then web) is probed
  inside every `startListening` call and has no simulated fallback.
* `HookV2`   — second hook variant (lines 425-785): `initializeSpeechRecognition`
  resolves a `speechMethod` (expo / web / simulation) once; `startListening`
  dispatches on the stored method; the simulated provider is
  `startMobileSpeechRecognition`.
* `HookV3`   — third hook variant (lines 786-954): simulation-only hook with
  `simulateSpeechRecognition` and a 2000 ms timer.
* `Screen.ScreenV1` / `Screen.ScreenV2` — the two `VoiceScreen` variants.

Asynchronous callbacks (timers, recognition events) are modelled as explicit
state-passing functions; the observable callback invocations (`onResult`,
`onError`) and the ghost session events (a session beginning, a session being
stopped, the 100 ms settling delay) are collected in a list of `Action`s.
-/

namespace MedConscious

/-- Observable happenings of one hook call: callback invocations plus ghost
markers for session lifecycle used to state the single-session invariant. -/
inductive Action where
  | resultEmitted (transcript : String) (confidence : Rat)
  | errorEmitted (message : String)
  | sessionBegun
  | sessionStopped
  | settleDelay (ms : Nat)
deriving DecidableEq, Repr

/-- Translation of the JavaScript expression `confidence || 0.9` applied to a
possibly-undefined confidence value (`none` models `undefined`; `0` is falsy). -/
def confidenceOr (confidence : Option Rat) : Rat :=
  match confidence with
  | some c => if c = 0 then (0.9 : Rat) else c
  | none => (0.9 : Rat)

/-- Fixed confidence reported by both simulated providers (source literal `0.95`). -/
def simConfidence : Rat := 0.95

/-- The result-callback invocations contained in a list of actions, as
(transcript, confidence) pairs. -/
def resultsOf (l : List Action) : List (String × Rat) :=
  l.filterMap fun a =>
    match a with
    | Action.resultEmitted t c => some (t, c)
    | _ => none

/-- The error-callback invocations contained in a list of actions. -/
def errorsOf (l : List Action) : List String :=
  l.filterMap fun a =>
    match a with
    | Action.errorEmitted m => some m
    | _ => none

namespace HookV3

/-- State of the simulation-only hook (third variant, lines 786-954):
`isListening` and `transcript` are React state, `hasPermission` is the
tri-state permission (`none` models `null`), `isRecordingRef` is the
single-flight guard ref, and `timeoutRef` holds the delay of a pending,
uncancelled `setTimeout` (`none` when no emission is scheduled). -/
structure SimState where
  isListening : Bool
  hasPermission : Option Bool
  transcript : String
  isRecordingRef : Bool
  timeoutRef : Option Nat
deriving DecidableEq, Repr

/-- Initial hook state before the mount effect runs. -/
def initialState : SimState :=
  { isListening := false, hasPermission := none, transcript := ""
    isRecordingRef := false, timeoutRef := none }

/-- Lines 821-831: `requestPermissions` assumes permission is granted
(no operation in its try-block can fail). -/
def requestPermissions (s : SimState) : SimState :=
  { s with hasPermission := some true }

/-- The hook state after the mount effect (`requestPermissions`). -/
def readyState : SimState := requestPermissions initialState

/-- Lines 891-907: the fixed candidate phrase set of the simulated provider. -/
def mockTranscripts : List String :=
  ["Hello, how are you?",
   "What's the weather like today?",
   "Set a timer for 5 minutes",
   "Tell me a joke",
   "How can I help you?",
   "I have a headache, what should I do?",
   "What are the symptoms of flu?",
   "How can I improve my sleep?",
   "What foods are good for heart health?",
   "I feel stressed, any advice?",
   "Can you recommend some exercises?",
   "What vitamins should I take?",
   "How much water should I drink daily?",
   "What are healthy breakfast options?",
   "How can I reduce anxiety naturally?"]

/-- Lines 909-910: `mockTranscripts[Math.floor(Math.random() * mockTranscripts.length)]`,
with the uniformly random index modelled as `rand % length`. -/
def pickTranscript (rand : Nat) : String :=
  mockTranscripts.getD (rand % mockTranscripts.length) ""

/-- Lines 861-878: `stopListening` — no-op unless a session is active;
otherwise clears the pending timeout and resets both flags.  (The try-block
contains no failing operation, so the catch branch is dead.) -/
def stopListening (s : SimState) : SimState × List Action :=
  if s.isRecordingRef then
    ({ s with timeoutRef := none, isRecordingRef := false, isListening := false },
     [Action.sessionStopped])
  else (s, [])

/-- Lines 880-887 and 921: `simulateSpeechRecognition` clears any existing
timeout and schedules the emission callback 2000 ms later. -/
def simulateSpeechRecognition (s : SimState) : SimState :=
  { s with timeoutRef := some 2000 }

/-- Lines 833-859: `startListening` — error callback when permission is not
granted (`!hasPermission` is true for both `null` and `false`); otherwise stop
any active session first, await the 100 ms settling delay, set both flags and
schedule the simulated recognition. -/
def startListening (s : SimState) : SimState × List Action :=
  if s.hasPermission ≠ some true then
    (s, [Action.errorEmitted "Microphone permission not granted"])
  else
    let p :=
      if s.isRecordingRef then
        ((stopListening s).1, (stopListening s).2 ++ [Action.settleDelay 100])
      else (s, [])
    (simulateSpeechRecognition { p.1 with isRecordingRef := true, isListening := true },
     p.2 ++ [Action.sessionBegun])

/-- Lines 887-921: the body of the scheduled `setTimeout` callback.  It runs
only while the timeout is still pending (a cleared timer never fires, and a
fired timer is consumed); it returns early when the hook is no longer
recording, otherwise it emits one random transcript with confidence 0.95 and,
unless `continuous`, stops the session. -/
def simTimeoutFire (continuous : Bool) (rand : Nat) (s : SimState) :
    SimState × List Action :=
  if s.timeoutRef.isSome then
    let s1 : SimState := { s with timeoutRef := none }
    if s1.isRecordingRef then
      let t := pickTranscript rand
      let s2 : SimState := { s1 with transcript := t }
      if continuous then (s2, [Action.resultEmitted t simConfidence])
      else
        ((stopListening s2).1,
         Action.resultEmitted t simConfidence :: (stopListening s2).2)
    else (s1, [])
  else (s, [])

/-- The externally triggerable operations on the hook: a `startListening`
call, a `stopListening` call, or the runtime firing the scheduled timer
(carrying the random draw). -/
inductive HookOp where
  | startCall
  | stopCall
  | timerFire (rand : Nat)
deriving DecidableEq, Repr

/-- One operation applied to the hook state. -/
def step (continuous : Bool) (s : SimState) : HookOp → SimState × List Action
  | HookOp.startCall => startListening s
  | HookOp.stopCall => stopListening s
  | HookOp.timerFire rand => simTimeoutFire continuous rand s

/-- A sequence of operations applied in order, concatenating the emitted
actions. -/
def run (continuous : Bool) (s : SimState) : List HookOp → SimState × List Action
  | [] => (s, [])
  | op :: ops =>
      ((run continuous (step continuous s op).1 ops).1,
       (step continuous s op).2 ++ (run continuous (step continuous s op).1 ops).2)

/-- Contribution of one action to the number of active sessions. -/
def sessionDelta : Action → Int
  | Action.sessionBegun => 1
  | Action.sessionStopped => -1
  | _ => 0

/-- Net change of the number of active sessions over a list of actions. -/
def balance (l : List Action) : Int := (l.map sessionDelta).sum

/-- Number of active sessions recorded in the hook state. -/
def activeCount (s : SimState) : Int := if s.isRecordingRef then 1 else 0

/-- Decides that, starting from `c` active sessions, the running number of
active sessions stays between 0 and 1 at every instant of the action list. -/
def prefixOkB : Int → List Action → Bool
  | c, [] => decide (0 ≤ c ∧ c ≤ 1)
  | c, a :: l => decide (0 ≤ c ∧ c ≤ 1) && prefixOkB (c + sessionDelta a) l

end HookV3

namespace HookV2

/-- The provider resolved by the second hook variant's initialization
(source union type at lines 453-455). -/
inductive SpeechMethod where
  | expo
  | web
  | simulation
deriving DecidableEq, Repr

/-- State of the initialize-based hook (second variant, lines 425-785):
besides the fields of the simulation-only variant it stores the resolved
`speechMethod`, the captured audio bytes and whether a web recognition object
is held in `recognitionRef`. -/
structure BState where
  isListening : Bool
  hasPermission : Option Bool
  transcript : String
  audioData : Option (List Nat)
  speechMethod : SpeechMethod
  isRecordingRef : Bool
  recognitionRef : Bool
  timeoutRef : Option Nat
deriving DecidableEq, Repr

/-- Environment probed by initialization: whether the expo speech-recognition
module can be imported and its permission request resolves, whether the
permission status is "granted", whether the platform is web, and whether a
web SpeechRecognition constructor exists. -/
structure InitEnv where
  expoAvailable : Bool
  expoGranted : Bool
  platformIsWeb : Bool
  webSpeechAvailable : Bool
deriving DecidableEq, Repr

/-- Lines 475-516: `initializeSpeechRecognition` — strict priority chain
expo, then web, then simulation; every branch sets `hasPermission` to true. -/
def initializeSpeechRecognition (env : InitEnv) (s : BState) : BState :=
  if env.expoAvailable && env.expoGranted then
    { s with speechMethod := SpeechMethod.expo, hasPermission := some true }
  else if env.platformIsWeb && env.webSpeechAvailable then
    { s with speechMethod := SpeechMethod.web, hasPermission := some true }
  else
    { s with speechMethod := SpeechMethod.simulation, hasPermission := some true }

/-- Lines 627-634: the fixed candidate phrase set of `startMobileSpeechRecognition`. -/
def simulatedResponses : List String :=
  ["I have a headache, what should I do?",
   "What are the symptoms of flu?",
   "How can I improve my sleep?",
   "What foods are good for heart health?",
   "I feel stressed, any advice?",
   "How much water should I drink daily?"]

/-- Lines 637-640: `simulatedResponses[Math.floor(Math.random() * simulatedResponses.length)]`,
with the uniformly random index modelled as `rand % length`. -/
def pickResponse (rand : Nat) : String :=
  simulatedResponses.getD (rand % simulatedResponses.length) ""

/-- Lines 615-624: `startMobileSpeechRecognition` — sets both flags, shows the
interim simulation banner as the transcript, and schedules the emission
callback 2000 ms later.  It has no failure path. -/
def startMobileSpeechRecognition (s : BState) : BState :=
  { s with isListening := true, isRecordingRef := true,
           transcript := "🎤 Listening... (simulation mode)",
           timeoutRef := some 2000 }

/-- Lines 710-747: `stopListening` — no-op unless a session is active;
otherwise clears the pending timeout, stops and drops the provider objects,
and (in the finally block) resets both flags. -/
def stopListening (s : BState) : BState × List Action :=
  if s.isRecordingRef then
    ({ s with timeoutRef := none, recognitionRef := false,
              isListening := false, isRecordingRef := false },
     [Action.sessionStopped])
  else (s, [])

/-- Lines 673-708: `startListening` — re-initializes and returns when the
permission is still undetermined; error callback when permission is denied;
otherwise stops any active session first, awaits the 100 ms settling delay,
clears the transcript and dispatches on the stored `speechMethod`.
`providerStartFails` models the expo/web start call throwing, which the catch
block turns into an error callback and a reset to idle; the simulation branch
cannot fail. -/
def startListening (providerStartFails : Bool) (env : InitEnv) (s : BState) :
    BState × List Action :=
  if s.hasPermission = none then
    (initializeSpeechRecognition env s, [])
  else if s.hasPermission = some false then
    (s, [Action.errorEmitted "Microphone permission not granted"])
  else
    let p :=
      if s.isRecordingRef then
        ((stopListening s).1, (stopListening s).2 ++ [Action.settleDelay 100])
      else (s, [])
    let s1 : BState := { p.1 with transcript := "" }
    match s1.speechMethod with
    | SpeechMethod.simulation =>
        (startMobileSpeechRecognition s1, p.2 ++ [Action.sessionBegun])
    | SpeechMethod.expo =>
        if providerStartFails then
          ({ s1 with isListening := false, isRecordingRef := false },
           p.2 ++ [Action.errorEmitted "Failed to start speech recognition"])
        else (s1, p.2 ++ [Action.sessionBegun])
    | SpeechMethod.web =>
        if providerStartFails then
          ({ s1 with isListening := false, isRecordingRef := false },
           p.2 ++ [Action.errorEmitted "Failed to start speech recognition"])
        else ({ s1 with recognitionRef := true }, p.2 ++ [Action.sessionBegun])

/-- Lines 624-657: the body of the simulated provider's `setTimeout` callback.
It runs only while the timeout is still pending; if the hook is still
recording it emits one random phrase with confidence 0.95 and, unless
`continuous`, stops the session. -/
def mobileSimTimerFire (continuous : Bool) (rand : Nat) (s : BState) :
    BState × List Action :=
  if s.timeoutRef.isSome then
    let s1 : BState := { s with timeoutRef := none }
    if s1.isRecordingRef then
      let t := pickResponse rand
      let s2 : BState := { s1 with transcript := t }
      if continuous then (s2, [Action.resultEmitted t simConfidence])
      else
        ((stopListening s2).1,
         Action.resultEmitted t simConfidence :: (stopListening s2).2)
    else (s1, [])
  else (s, [])

/-- Lines 580-596: the web recognition `onresult` handler.  `finalTranscript`
is the concatenation of all final transcripts of the event (empty when only
interim results arrived).  It emits the result but does not stop the session,
whatever the `continuous` configuration. -/
def webOnResult (finalTranscript : String) (confidence : Option Rat) (s : BState) :
    BState × List Action :=
  if finalTranscript = "" then (s, [])
  else
    ({ s with transcript := finalTranscript },
     [Action.resultEmitted finalTranscript (confidenceOr confidence)])

/-- Lines 605-609: the web recognition `onend` handler resets both flags. -/
def webOnEnd (s : BState) : BState :=
  { s with isListening := false, isRecordingRef := false }

end HookV2

namespace HookV1

/-- State of the first hook variant (lines 1-424): web speech recognition plus
MediaRecorder audio capture into `audioData`. -/
structure WebState where
  isListening : Bool
  hasPermission : Option Bool
  transcript : String
  audioData : Option (List Nat)
  isRecordingRef : Bool
  recognitionRef : Bool
  mediaRecorderActive : Bool
  timeoutRef : Option Nat
deriving DecidableEq, Repr

/-- Environment probed during every `startListening` call of this variant:
whether the expo module imports and starts, whether a web SpeechRecognition
constructor exists, whether its `start()` call throws synchronously, and
whether `navigator.mediaDevices` exists for audio capture. -/
structure Env where
  expoAvailable : Bool
  webSpeechAvailable : Bool
  webStartThrows : Bool
  mediaDevicesAvailable : Bool
deriving DecidableEq, Repr

/-- Lines 332-385: `stopListening` — no-op unless a session is active;
otherwise resets both flags, clears the pending timeout and tears down the
recognition and MediaRecorder objects. -/
def stopListening (s : WebState) : WebState × List Action :=
  if s.isRecordingRef then
    ({ s with isRecordingRef := false, isListening := false, timeoutRef := none,
              recognitionRef := false, mediaRecorderActive := false },
     [Action.sessionStopped])
  else (s, [])

/-- Lines 118-164: `startAudioRecording` — starts a MediaRecorder when
`navigator.mediaDevices` exists; errors are swallowed, nothing is thrown. -/
def startAudioRecording (env : Env) (s : WebState) : WebState :=
  if env.mediaDevicesAvailable then { s with mediaRecorderActive := true } else s

/-- Lines 242-330: `startWebSpeechRecognition` — when a web SpeechRecognition
constructor exists, configures a recognition object and calls `start()`
(a synchronous throw is caught and reported, leaving the flags untouched);
when none exists, reports the unsupported-speech error.  No branch rethrows
and no branch resets `isListening` or `isRecordingRef`. -/
def startWebSpeechRecognition (env : Env) (s : WebState) : WebState × List Action :=
  if env.webSpeechAvailable then
    if env.webStartThrows then
      (s, [Action.errorEmitted "Failed to start speech recognition. Please try again."])
    else
      ({ s with recognitionRef := true }, [Action.sessionBegun])
  else
    (s, [Action.errorEmitted "Speech recognition is not supported. Please use a device with speech recognition capabilities or try the web version in Chrome/Safari."])

/-- Lines 166-240: `startSpeechRecognition` — tries the expo module first and
falls back to `startWebSpeechRecognition` when it is unavailable.  The chain
is probed anew on every call and has no simulated terminal fallback. -/
def startSpeechRecognition (env : Env) (s : WebState) : WebState × List Action :=
  if env.expoAvailable then (s, [Action.sessionBegun])
  else startWebSpeechRecognition env s

/-- Lines 87-116: `startListening` — error callback when permission is not
granted; otherwise stops any active session first, awaits the 100 ms settling
delay, sets both flags and runs audio capture and the recognition chain.
None of the awaited helpers rethrows, so the outer catch (lines 110-115)
never runs and the flags stay set even when the chain only reported an
error. -/
def startListening (env : Env) (s : WebState) : WebState × List Action :=
  if s.hasPermission ≠ some true then
    (s, [Action.errorEmitted "Microphone permission not granted"])
  else
    let p :=
      if s.isRecordingRef then
        ((stopListening s).1, (stopListening s).2 ++ [Action.settleDelay 100])
      else (s, [])
    let s1 : WebState := { p.1 with isRecordingRef := true, isListening := true }
    let s2 := startAudioRecording env s1
    ((startSpeechRecognition env s2).1, p.2 ++ (startSpeechRecognition env s2).2)

/-- Lines 262-280: the web recognition `onresult` handler.  On a final result
it trims the transcript, emits it with `confidence || 0.9`, and stops the
session unless `continuous`; interim results are ignored. -/
def webOnResult (continuous : Bool) (isFinal : Bool) (transcriptRaw : String)
    (confidence : Option Rat) (s : WebState) : WebState × List Action :=
  if isFinal then
    let t := transcriptRaw.trim
    let s1 : WebState := { s with transcript := t }
    if continuous then (s1, [Action.resultEmitted t (confidenceOr confidence)])
    else
      ((stopListening s1).1,
       Action.resultEmitted t (confidenceOr confidence) :: (stopListening s1).2)
  else (s, [])

/-- Lines 408-409: `getAudioBytes` returns the captured audio bytes. -/
def getAudioBytes (s : WebState) : Option (List Nat) := s.audioData

/-- Line 410: `clearAudioData` resets the captured audio bytes to null. -/
def clearAudioData (s : WebState) : WebState := { s with audioData := none }

end HookV1

namespace HookV2

/-- Line 770: `getAudioBytes` returns the captured audio bytes. -/
def getAudioBytes (s : BState) : Option (List Nat) := s.audioData

/-- Line 771: `clearAudioData` resets the captured audio bytes to null. -/
def clearAudioData (s : BState) : BState := { s with audioData := none }

end HookV2

namespace Screen

/-- Sender of a chat message. -/
inductive Sender where
  | user
  | ai
deriving DecidableEq, Repr

/-- A chat message appended to the external store (the timestamp added by
the external `createMessage` helper is irrelevant to the claims). -/
structure ChatMessage where
  text : String
  sender : Sender
deriving DecidableEq, Repr

/-- The external `createMessage(text, sender)` helper from `utils/aiResponses`. -/
def createMessage (text : String) (sender : Sender) : ChatMessage :=
  { text := text, sender := sender }

/-- Observable effects of a screen-controller handler: dispatches to the
external store and flag, navigation, status text and speech synthesis. -/
inductive Effect where
  | addMessage (m : ChatMessage)
  | navigateChat
  | setStatus (status : String)
  | setRecording (recording : Bool)
  | toggleLifecycle
  | speakText (text : String)
deriving DecidableEq, Repr

/-- Result of `handleVoiceResult`: the effects performed synchronously, the
delay of the scheduled callback, and the effects the callback performs. -/
structure VoiceTurn where
  immediate : List Effect
  delayMs : Nat
  delayed : List Effect
deriving DecidableEq, Repr

/-- The chat messages appended by a list of effects, in order. -/
def messagesOf (effects : List Effect) : List ChatMessage :=
  effects.filterMap fun e =>
    match e with
    | Effect.addMessage m => some m
    | _ => none

/-- The external chat store after the `ADD_MESSAGE` dispatches of a list of
effects have been appended. -/
def appendMessages (store : List ChatMessage) (effects : List Effect) :
    List ChatMessage :=
  store ++ messagesOf effects

/-- Lines 120 and 363 of `VoiceScreen.tsx` (both variants): the microphone
button is rendered disabled exactly when permission is explicitly denied. -/
def micButtonDisabled (hasPermission : Option Bool) : Bool :=
  hasPermission = some false

namespace ScreenV1

/-- Lines 35-62 of `VoiceScreen.tsx` (first variant): `handleVoiceResult` —
synchronously sets the status, appends the user message, navigates to the
chat view and restores the status; a 1000 ms timer then appends the generated
AI message and speaks it.  `gen` is the external `generateAIResponse`. -/
def handleVoiceResult (gen : String → String) (transcript : String) : VoiceTurn :=
  { immediate := [Effect.setStatus "Processing...",
                  Effect.addMessage (createMessage transcript Sender.user),
                  Effect.navigateChat,
                  Effect.setStatus "Tap to speak"],
    delayMs := 1000,
    delayed := [Effect.addMessage (createMessage (gen transcript) Sender.ai),
                Effect.speakText (gen transcript)] }

/-- Lines 64-82 (first variant): `handleMicPress` — while listening it marks
processing, clears the recording flag and toggles; while idle it returns
after a permission-required status when permission is explicitly denied, and
otherwise sets the recording flag and toggles. -/
def handleMicPress (isListening : Bool) (hasPermission : Option Bool) :
    List Effect :=
  if isListening then
    [Effect.setStatus "Processing...", Effect.setRecording false,
     Effect.toggleLifecycle]
  else if hasPermission = some false then
    [Effect.setStatus "Microphone permission required"]
  else
    [Effect.setStatus "Listening... Speak now", Effect.setRecording true,
     Effect.toggleLifecycle]

end ScreenV1

namespace ScreenV2

/-- Lines 303-317 (second variant): `handleVoiceResult` — appends the user
message and navigates synchronously; a 1000 ms timer then appends the
generated AI message. -/
def handleVoiceResult (gen : String → String) (transcript : String) : VoiceTurn :=
  { immediate := [Effect.addMessage (createMessage transcript Sender.user),
                  Effect.navigateChat],
    delayMs := 1000,
    delayed := [Effect.addMessage (createMessage (gen transcript) Sender.ai)] }

/-- Lines 319-328 (second variant): `handleMicPress` — no permission guard:
it always updates the status, sets the recording flag to the negation of the
listening flag and toggles the lifecycle controller. -/
def handleMicPress (isListening : Bool) : List Effect :=
  if isListening then
    [Effect.setStatus "Tap to speak", Effect.setRecording false,
     Effect.toggleLifecycle]
  else
    [Effect.setStatus "Listening...", Effect.setRecording true,
     Effect.toggleLifecycle]

end ScreenV2

end Screen

/-- A granted, idle state of the simulation-only hook with a stale pending
timer, used to instantiate theorems at concrete inputs. -/
def sampleActiveV3 : HookV3.SimState :=
  { isListening := true, hasPermission := some true, transcript := ""
    isRecordingRef := true, timeoutRef := some 2000 }

/-- A granted, idle state of the simulation-only hook. -/
def sampleIdleV3 : HookV3.SimState := HookV3.readyState

/-- A granted, idle state of the initialize-based hook resolved to the
simulated provider. -/
def sampleSimV2 : HookV2.BState :=
  { isListening := false, hasPermission := some true, transcript := ""
    audioData := none, speechMethod := HookV2.SpeechMethod.simulation,
    isRecordingRef := false, recognitionRef := false, timeoutRef := none }

/-- A listening state of the initialize-based hook on the web provider. -/
def sampleWebListeningV2 : HookV2.BState :=
  { isListening := true, hasPermission := some true, transcript := ""
    audioData := none, speechMethod := HookV2.SpeechMethod.web,
    isRecordingRef := true, recognitionRef := true, timeoutRef := none }

/-- A state of the initialize-based hook with permission explicitly denied. -/
def sampleDeniedV2 : HookV2.BState :=
  { sampleSimV2 with hasPermission := some false }

/-- A granted, idle state of the first hook variant. -/
def sampleIdleV1 : HookV1.WebState :=
  { isListening := false, hasPermission := some true, transcript := ""
    audioData := none, isRecordingRef := false, recognitionRef := false,
    mediaRecorderActive := false, timeoutRef := none }

/-- A listening state of the first hook variant. -/
def sampleListeningV1 : HookV1.WebState :=
  { sampleIdleV1 with isListening := true, isRecordingRef := true,
                      recognitionRef := true }

/-- A state of the first hook variant with permission explicitly denied. -/
def sampleDeniedV1 : HookV1.WebState :=
  { sampleIdleV1 with hasPermission := some false }

/-- An environment of the first hook variant with no expo module and no web
speech API. -/
def envNoProviders : HookV1.Env :=
  { expoAvailable := false, webSpeechAvailable := false, webStartThrows := false,
    mediaDevicesAvailable := false }

/-- An environment of the first hook variant where the web speech API exists
but its start call throws. -/
def envWebThrows : HookV1.Env :=
  { expoAvailable := false, webSpeechAvailable := true, webStartThrows := true,
    mediaDevicesAvailable := false }

/-- A sample environment of the initialize-based hook with nothing available,
so that initialization falls through to the simulated provider. -/
def envSimOnlyV2 : HookV2.InitEnv :=
  { expoAvailable := false, expoGranted := false, platformIsWeb := false,
    webSpeechAvailable := false }

namespace HookV3

theorem balance_nil : balance [] = 0 := rfl

theorem balance_cons (a : Action) (l : List Action) :
    balance (a :: l) = sessionDelta a + balance l := by
  simp [balance]

theorem balance_append (l1 l2 : List Action) :
    balance (l1 ++ l2) = balance l1 + balance l2 := by
  simp [balance]

theorem activeCount_bounds (s : SimState) :
    0 ≤ activeCount s ∧ activeCount s ≤ 1 := by
  cases h : s.isRecordingRef <;> simp [activeCount, h]

theorem prefixOkB_append (c : Int) (l1 l2 : List Action)
    (h1 : prefixOkB c l1 = true)
    (h2 : prefixOkB (c + balance l1) l2 = true) :
    prefixOkB c (l1 ++ l2) = true := by
  induction l1 generalizing c with
  | nil =>
      simpa [balance] using h2
  | cons a t ih =>
      rw [balance_cons, ← add_assoc] at h2
      rw [List.cons_append, prefixOkB]
      rw [prefixOkB, Bool.and_eq_true] at h1
      rw [Bool.and_eq_true]
      exact ⟨h1.1, ih (c + sessionDelta a) h1.2 h2⟩

theorem step_ok (continuous : Bool) (s : SimState) (op : HookOp) :
    activeCount (step continuous s op).1
      = activeCount s + balance (step continuous s op).2
    ∧ prefixOkB (activeCount s) (step continuous s op).2 = true := by
  cases op with
  | startCall =>
      by_cases hp : s.hasPermission = some true
      · cases hr : s.isRecordingRef <;>
          simp [step, startListening, stopListening, simulateSpeechRecognition,
                hp, hr, activeCount, balance, sessionDelta, prefixOkB]
      · cases hr : s.isRecordingRef <;>
          simp [step, startListening, hp, hr, activeCount, balance,
                sessionDelta, prefixOkB]
  | stopCall =>
      cases hr : s.isRecordingRef <;>
        simp [step, stopListening, hr, activeCount, balance, sessionDelta,
              prefixOkB]
  | timerFire rand =>
      rcases ht : s.timeoutRef with _ | d
      · cases hr : s.isRecordingRef <;>
          simp [step, simTimeoutFire, ht, hr, activeCount, balance,
                sessionDelta, prefixOkB]
      · cases hr : s.isRecordingRef
        · simp [step, simTimeoutFire, ht, hr, activeCount, balance,
                sessionDelta, prefixOkB]
        · cases continuous <;>
            simp [step, simTimeoutFire, stopListening, ht, hr, activeCount,
                  balance, sessionDelta, prefixOkB]

theorem run_ok (continuous : Bool) (ops : List HookOp) (s : SimState) :
    activeCount (run continuous s ops).1
      = activeCount s + balance (run continuous s ops).2
    ∧ prefixOkB (activeCount s) (run continuous s ops).2 = true := by
  induction ops generalizing s with
  | nil =>
      refine ⟨by simp [run, balance], ?_⟩
      have hb := activeCount_bounds s
      simp [run, prefixOkB]
      exact hb
  | cons op ops ih =>
      have hstep := step_ok continuous s op
      have hrest := ih (step continuous s op).1
      constructor
      · simp only [run, balance_append]
        omega
      · simp only [run]
        exact prefixOkB_append _ _ _ hstep.2 (by rw [← hstep.1]; exact hrest.2)

end HookV3

theorem getD_mem_of_lt {α : Type} (l : List α) (d : α) (n : Nat) (h : n < l.length) :
    l.getD n d ∈ l := by
  induction l generalizing n with
  | nil => simp at h
  | cons a t ih =>
      cases n with
      | zero => simp [List.getD]
      | succ m =>
          simp only [List.getD_cons_succ]
          exact List.mem_cons_of_mem _ (ih m (by simpa using h))

theorem getD_eq_get_of_lt {α : Type} (l : List α) (d : α) (n : Nat) (h : n < l.length) :
    l.getD n d = l.get ⟨n, h⟩ := by
  induction l generalizing n with
  | nil => simp at h
  | cons a t ih =>
      cases n with
      | zero => rfl
      | succ m => simp only [List.getD_cons_succ, List.get_cons_succ]; exact ih m _

theorem pickTranscript_mem (rand : Nat) :
    HookV3.pickTranscript rand ∈ HookV3.mockTranscripts := by
  unfold HookV3.pickTranscript
  exact getD_mem_of_lt _ _ _ (Nat.mod_lt _ (by simp [HookV3.mockTranscripts]))

theorem pickResponse_mem (rand : Nat) :
    HookV2.pickResponse rand ∈ HookV2.simulatedResponses := by
  unfold HookV2.pickResponse
  exact getD_mem_of_lt _ _ _ (Nat.mod_lt _ (by simp [HookV2.simulatedResponses]))

/-- C1: for every sequence of startListening / stopListening calls and timer
firings, at most one capture session is active at any instant — the running
session count of the emitted trace stays between 0 and 1 at every point
(`prefixOkB 0`) — and a startListening call that finds a session active stops
it first and lets the 100 ms settling delay elapse before the new session
begins (its action trace is exactly stop, settle 100 ms, begin). -/
theorem single_active_session (continuous : Bool) (ops : List HookV3.HookOp) :
    HookV3.prefixOkB 0 (HookV3.run continuous HookV3.readyState ops).2 = true
    ∧ ∀ s : HookV3.SimState, s.isRecordingRef = true → s.hasPermission = some true →
        (HookV3.startListening s).2
          = [Action.sessionStopped, Action.settleDelay 100, Action.sessionBegun] := by
  constructor
  · have h := HookV3.run_ok continuous ops HookV3.readyState
    have h0 : HookV3.activeCount HookV3.readyState = 0 := rfl
    rw [h0] at h
    exact h.2
  · intro s hr hp
    simp [HookV3.startListening, HookV3.stopListening, hp, hr]

/-- Witness: C1 instantiated on the trace start-start-stop (the second start
preempts the first session) and on a concrete active state. -/
theorem single_active_session_witness :
    HookV3.prefixOkB 0 (HookV3.run false HookV3.readyState
      [HookV3.HookOp.startCall, HookV3.HookOp.startCall,
       HookV3.HookOp.stopCall]).2 = true
    ∧ (HookV3.startListening sampleActiveV3).2
        = [Action.sessionStopped, Action.settleDelay 100, Action.sessionBegun] :=
  ⟨(single_active_session false
      [HookV3.HookOp.startCall, HookV3.HookOp.startCall, HookV3.HookOp.stopCall]).1,
   (single_active_session false
      [HookV3.HookOp.startCall, HookV3.HookOp.startCall, HookV3.HookOp.stopCall]).2
     sampleActiveV3 rfl rfl⟩

theorem startListening_sim_state (pf : Bool) (env : HookV2.InitEnv)
    (s : HookV2.BState) (hp : s.hasPermission = some true)
    (hm : s.speechMethod = HookV2.SpeechMethod.simulation) :
    (HookV2.startListening pf env s).1.timeoutRef = some 2000
    ∧ (HookV2.startListening pf env s).1.isListening = true
    ∧ (HookV2.startListening pf env s).1.isRecordingRef = true := by
  cases hr : s.isRecordingRef <;>
    simp [HookV2.startListening, HookV2.stopListening,
          HookV2.startMobileSpeechRecognition, hp, hm, hr]

theorem mobileSimTimerFire_pending (continuous : Bool) (rand : Nat)
    (s : HookV2.BState) (hT : s.timeoutRef.isSome = true)
    (hR : s.isRecordingRef = true) :
    (HookV2.mobileSimTimerFire continuous rand s).2
      = Action.resultEmitted (HookV2.pickResponse rand) simConfidence ::
          (if continuous then [] else [Action.sessionStopped])
    ∧ (HookV2.mobileSimTimerFire continuous rand s).1.transcript
        = HookV2.pickResponse rand
    ∧ (HookV2.mobileSimTimerFire continuous rand s).1.timeoutRef = none
    ∧ (HookV2.mobileSimTimerFire continuous rand s).1.isRecordingRef = continuous
    ∧ (HookV2.mobileSimTimerFire continuous rand s).1.isListening
        = (if continuous then s.isListening else false) := by
  cases continuous <;>
    simp [HookV2.mobileSimTimerFire, HookV2.stopListening, hT, hR]

theorem startListeningV3_state (s : HookV3.SimState)
    (hp : s.hasPermission = some true) :
    (HookV3.startListening s).1.timeoutRef = some 2000
    ∧ (HookV3.startListening s).1.isListening = true
    ∧ (HookV3.startListening s).1.isRecordingRef = true := by
  cases hr : s.isRecordingRef <;>
    simp [HookV3.startListening, HookV3.stopListening,
          HookV3.simulateSpeechRecognition, hp, hr]

theorem simTimeoutFire_pending (continuous : Bool) (rand : Nat)
    (s : HookV3.SimState) (hT : s.timeoutRef.isSome = true)
    (hR : s.isRecordingRef = true) :
    (HookV3.simTimeoutFire continuous rand s).2
      = Action.resultEmitted (HookV3.pickTranscript rand) simConfidence ::
          (if continuous then [] else [Action.sessionStopped])
    ∧ (HookV3.simTimeoutFire continuous rand s).1.timeoutRef = none
    ∧ (HookV3.simTimeoutFire continuous rand s).1.isRecordingRef = continuous := by
  cases continuous <;>
    simp [HookV3.simTimeoutFire, HookV3.stopListening, hT, hR]

/-- C2: when the resolved provider is the simulated one, startListening
succeeds unconditionally and schedules the emission with a fixed 2000 ms
delay; when that timer fires, exactly one result is emitted whose transcript
is the uniformly random pick (`rand % length`, every index reachable) from
the fixed six-element candidate phrase set and whose confidence is 0.95, and
the session is stopped right after the emission unless `continuous` is true;
a later timer firing emits nothing.  The same holds in the simulation-only
hook variant with its fifteen-phrase set. -/
theorem simulated_provider_emission (pf : Bool) (env : HookV2.InitEnv)
    (s : HookV2.BState) (rand : Nat) (hp : s.hasPermission = some true)
    (hm : s.speechMethod = HookV2.SpeechMethod.simulation) :
    (HookV2.startListening pf env s).1.timeoutRef = some 2000
    ∧ (HookV2.startListening pf env s).1.isListening = true
    ∧ (HookV2.mobileSimTimerFire false rand (HookV2.startListening pf env s).1).2
        = [Action.resultEmitted (HookV2.pickResponse rand) simConfidence,
           Action.sessionStopped]
    ∧ (HookV2.mobileSimTimerFire false rand
        (HookV2.startListening pf env s).1).1.isRecordingRef = false
    ∧ (HookV2.mobileSimTimerFire false rand
        (HookV2.startListening pf env s).1).1.isListening = false
    ∧ (HookV2.mobileSimTimerFire true rand (HookV2.startListening pf env s).1).2
        = [Action.resultEmitted (HookV2.pickResponse rand) simConfidence]
    ∧ (HookV2.mobileSimTimerFire true rand
        (HookV2.startListening pf env s).1).1.isRecordingRef = true
    ∧ HookV2.pickResponse rand ∈ HookV2.simulatedResponses
    ∧ HookV2.simulatedResponses.length = 6
    ∧ (∀ c2 r2 c1 r1, (HookV2.mobileSimTimerFire c2 r2
        (HookV2.mobileSimTimerFire c1 r1 (HookV2.startListening pf env s).1).1).2 = [])
    ∧ (∀ i, (hi : i < HookV2.simulatedResponses.length) →
        HookV2.pickResponse i = HookV2.simulatedResponses.get ⟨i, hi⟩)
    ∧ simConfidence = 0.95
    ∧ (∀ s3 : HookV3.SimState, s3.hasPermission = some true →
        (HookV3.startListening s3).1.timeoutRef = some 2000
        ∧ (HookV3.simTimeoutFire false rand (HookV3.startListening s3).1).2
            = [Action.resultEmitted (HookV3.pickTranscript rand) simConfidence,
               Action.sessionStopped]
        ∧ (HookV3.simTimeoutFire false rand
            (HookV3.startListening s3).1).1.isRecordingRef = false
        ∧ HookV3.pickTranscript rand ∈ HookV3.mockTranscripts) := by
  have hS := startListening_sim_state pf env s hp hm
  have hT : (HookV2.startListening pf env s).1.timeoutRef.isSome = true := by
    rw [hS.1]; rfl
  have hf := mobileSimTimerFire_pending false rand _ hT hS.2.2
  have hg := mobileSimTimerFire_pending true rand _ hT hS.2.2
  refine ⟨hS.1, hS.2.1, by simpa using hf.1, by simpa using hf.2.2.2.1,
          by simpa using hf.2.2.2.2, by simpa using hg.1,
          by simpa using hg.2.2.2.1, pickResponse_mem rand, rfl, ?_, ?_, rfl, ?_⟩
  · intro c2 r2 c1 r1
    have hnone := (mobileSimTimerFire_pending c1 r1 _ hT hS.2.2).2.2.1
    generalize (HookV2.mobileSimTimerFire c1 r1
      (HookV2.startListening pf env s).1).1 = t at hnone ⊢
    simp [HookV2.mobileSimTimerFire, hnone]
  · intro i hi
    unfold HookV2.pickResponse
    rw [Nat.mod_eq_of_lt hi]
    exact getD_eq_get_of_lt _ _ _ hi
  · intro s3 hp3
    have hS3 := startListeningV3_state s3 hp3
    have hT3 : (HookV3.startListening s3).1.timeoutRef.isSome = true := by
      rw [hS3.1]; rfl
    have hf3 := simTimeoutFire_pending false rand _ hT3 hS3.2.2
    exact ⟨hS3.1, by simpa using hf3.1, by simpa using hf3.2.2,
           pickTranscript_mem rand⟩

/-- Witness: C2 instantiated at an idle granted state resolved to the
simulated provider, with random draw 0. -/
theorem simulated_provider_emission_witness :
    (HookV2.startListening false envSimOnlyV2 sampleSimV2).1.timeoutRef = some 2000
    ∧ (HookV2.startListening false envSimOnlyV2 sampleSimV2).1.isListening = true
    ∧ (HookV2.mobileSimTimerFire false 0
        (HookV2.startListening false envSimOnlyV2 sampleSimV2).1).2
        = [Action.resultEmitted (HookV2.pickResponse 0) simConfidence,
           Action.sessionStopped] :=
  ⟨(simulated_provider_emission false envSimOnlyV2 sampleSimV2 0 rfl rfl).1,
   (simulated_provider_emission false envSimOnlyV2 sampleSimV2 0 rfl rfl).2.1,
   (simulated_provider_emission false envSimOnlyV2 sampleSimV2 0 rfl rfl).2.2.1⟩

/-- C3: if stopListening is called while the simulated provider's delayed
emission is still pending, the pending scheduled emission is cancelled and
the result callback is never invoked afterwards for that session: after any
`stopListening` call, a timer firing produces no callback at all, in both
hook variants that schedule a simulated emission.  (When a session was
active, the stop clears the timeout; when it was not, the fired callback's
recording guard returns early.) -/
theorem stop_cancels_pending_emission (continuous : Bool) (rand : Nat)
    (s3 : HookV3.SimState) (s2 : HookV2.BState) :
    (HookV3.simTimeoutFire continuous rand (HookV3.stopListening s3).1).2 = []
    ∧ (HookV2.mobileSimTimerFire continuous rand (HookV2.stopListening s2).1).2 = [] := by
  constructor
  · cases h : s3.isRecordingRef
    · rcases ht : s3.timeoutRef with _ | d <;>
        simp [HookV3.stopListening, HookV3.simTimeoutFire, h, ht]
    · simp [HookV3.stopListening, HookV3.simTimeoutFire, h]
  · cases h : s2.isRecordingRef
    · rcases ht : s2.timeoutRef with _ | d <;>
        simp [HookV2.stopListening, HookV2.mobileSimTimerFire, h, ht]
    · simp [HookV2.stopListening, HookV2.mobileSimTimerFire, h]

/-- C4: stopListening is idempotent — calling it when no session is active
(recording guard false) returns the state unchanged and invokes no callback,
in all three hook variants; in particular isListening, transcript, audio data
and the permission state are untouched and no error is reported. -/
theorem stop_idle_noop (s3 : HookV3.SimState) (s2 : HookV2.BState)
    (s1 : HookV1.WebState) (h3 : s3.isRecordingRef = false)
    (h2 : s2.isRecordingRef = false) (h1 : s1.isRecordingRef = false) :
    HookV3.stopListening s3 = (s3, [])
    ∧ HookV2.stopListening s2 = (s2, [])
    ∧ HookV1.stopListening s1 = (s1, []) := by
  refine ⟨?_, ?_, ?_⟩ <;>
    simp [HookV3.stopListening, HookV2.stopListening, HookV1.stopListening, h1, h2, h3]

/-- Witness: C4 instantiated at the idle sample states of the three hook
variants. -/
theorem stop_idle_noop_witness :
    HookV3.stopListening sampleIdleV3 = (sampleIdleV3, [])
    ∧ HookV2.stopListening sampleSimV2 = (sampleSimV2, [])
    ∧ HookV1.stopListening sampleIdleV1 = (sampleIdleV1, []) :=
  stop_idle_noop sampleIdleV3 sampleSimV2 sampleIdleV1 rfl rfl rfl

/-- C10: the audio-byte accessors satisfy the round-trip law — after
`clearAudioData` the stored bytes are null, so `getAudioBytes` returns
`none` — and neither accessor changes `isListening`, `hasPermission` or
`transcript` (`getAudioBytes` is a pure read of the `audioData` field), in
both hook variants that expose the accessors. -/
theorem audio_accessors_roundtrip (s1 : HookV1.WebState) (s2 : HookV2.BState) :
    HookV1.getAudioBytes (HookV1.clearAudioData s1) = none
    ∧ (HookV1.clearAudioData s1).isListening = s1.isListening
    ∧ (HookV1.clearAudioData s1).hasPermission = s1.hasPermission
    ∧ (HookV1.clearAudioData s1).transcript = s1.transcript
    ∧ HookV1.getAudioBytes s1 = s1.audioData
    ∧ HookV2.getAudioBytes (HookV2.clearAudioData s2) = none
    ∧ (HookV2.clearAudioData s2).isListening = s2.isListening
    ∧ (HookV2.clearAudioData s2).hasPermission = s2.hasPermission
    ∧ (HookV2.clearAudioData s2).transcript = s2.transcript
    ∧ HookV2.getAudioBytes s2 = s2.audioData := by
  simp [HookV1.getAudioBytes, HookV1.clearAudioData,
        HookV2.getAudioBytes, HookV2.clearAudioData]

/-- C8: for every transcript handed to the screen controller's result
handler, exactly one user chat message is appended synchronously and exactly
one AI chat message is appended by the callback scheduled 1000 ms later, the
user message preceding the AI message in the store, in both screen
variants. -/
theorem voice_result_user_then_ai (gen : String → String) (transcript : String)
    (store : List Screen.ChatMessage) :
    Screen.messagesOf (Screen.ScreenV1.handleVoiceResult gen transcript).immediate
      = [Screen.createMessage transcript Screen.Sender.user]
    ∧ (Screen.ScreenV1.handleVoiceResult gen transcript).delayMs = 1000
    ∧ Screen.messagesOf (Screen.ScreenV1.handleVoiceResult gen transcript).delayed
      = [Screen.createMessage (gen transcript) Screen.Sender.ai]
    ∧ Screen.appendMessages
        (Screen.appendMessages store
          (Screen.ScreenV1.handleVoiceResult gen transcript).immediate)
        (Screen.ScreenV1.handleVoiceResult gen transcript).delayed
      = store ++ [Screen.createMessage transcript Screen.Sender.user,
                  Screen.createMessage (gen transcript) Screen.Sender.ai]
    ∧ Screen.messagesOf (Screen.ScreenV2.handleVoiceResult gen transcript).immediate
      = [Screen.createMessage transcript Screen.Sender.user]
    ∧ (Screen.ScreenV2.handleVoiceResult gen transcript).delayMs = 1000
    ∧ Screen.messagesOf (Screen.ScreenV2.handleVoiceResult gen transcript).delayed
      = [Screen.createMessage (gen transcript) Screen.Sender.ai]
    ∧ Screen.appendMessages
        (Screen.appendMessages store
          (Screen.ScreenV2.handleVoiceResult gen transcript).immediate)
        (Screen.ScreenV2.handleVoiceResult gen transcript).delayed
      = store ++ [Screen.createMessage transcript Screen.Sender.user,
                  Screen.createMessage (gen transcript) Screen.Sender.ai] := by
  simp [Screen.messagesOf, Screen.appendMessages,
        Screen.ScreenV1.handleVoiceResult, Screen.ScreenV2.handleVoiceResult]

/-- Counterexample to C5 as stated: in the first hook variant, with the web
speech API present but its start call throwing, startListening reports the
failure through the error callback yet leaves isListening and the recording
guard set — the controller is not reset to idle, because the throw is caught
inside `startWebSpeechRecognition` (lines 326-329) and never reaches the
outer catch that would reset the flags. -/
theorem start_error_reporting_cex :
    (HookV1.startListening envWebThrows sampleIdleV1).1.isListening = true
    ∧ (HookV1.startListening envWebThrows sampleIdleV1).1.isRecordingRef = true
    ∧ (HookV1.startListening envWebThrows sampleIdleV1).2
        = [Action.errorEmitted "Failed to start speech recognition. Please try again."] := by
  refine ⟨rfl, rfl, rfl⟩

/-- C5 as amended: startListening never throws to the caller.  In both hook
variants, a denied permission immediately invokes the error callback with a
permission message and returns the state unchanged (isListening stays
false).  In the initialize-based variant a provider start error invokes the
error callback and resets the controller to idle (isListening false, no
active session), leaving the UI able to retry.  In the first variant,
provider start errors are reported from inside the per-call fallback chain
and the listening flags remain set rather than being reset. -/
theorem start_error_reporting (pf : Bool) (env2 : HookV2.InitEnv)
    (env1 : HookV1.Env) (s2 : HookV2.BState) (s1 : HookV1.WebState) :
    (s2.hasPermission = some false →
      HookV2.startListening pf env2 s2
        = (s2, [Action.errorEmitted "Microphone permission not granted"]))
    ∧ (s2.hasPermission = some true → s2.speechMethod = HookV2.SpeechMethod.expo →
        (HookV2.startListening true env2 s2).1.isListening = false
        ∧ (HookV2.startListening true env2 s2).1.isRecordingRef = false
        ∧ errorsOf (HookV2.startListening true env2 s2).2
            = ["Failed to start speech recognition"])
    ∧ (s2.hasPermission = some true → s2.speechMethod = HookV2.SpeechMethod.web →
        (HookV2.startListening true env2 s2).1.isListening = false
        ∧ (HookV2.startListening true env2 s2).1.isRecordingRef = false
        ∧ errorsOf (HookV2.startListening true env2 s2).2
            = ["Failed to start speech recognition"])
    ∧ (s1.hasPermission = some false →
        HookV1.startListening env1 s1
          = (s1, [Action.errorEmitted "Microphone permission not granted"]))
    ∧ (s1.hasPermission = some true → env1.expoAvailable = false →
        env1.webSpeechAvailable = true → env1.webStartThrows = true →
        (HookV1.startListening env1 s1).1.isListening = true
        ∧ (HookV1.startListening env1 s1).1.isRecordingRef = true
        ∧ errorsOf (HookV1.startListening env1 s1).2
            = ["Failed to start speech recognition. Please try again."]) := by
  refine ⟨?_, ?_, ?_, ?_, ?_⟩
  · intro hd
    simp [HookV2.startListening, hd]
  · intro hp hm
    cases hr : s2.isRecordingRef <;>
      simp [HookV2.startListening, HookV2.stopListening, hp, hm, hr, errorsOf]
  · intro hp hm
    cases hr : s2.isRecordingRef <;>
      simp [HookV2.startListening, HookV2.stopListening, hp, hm, hr, errorsOf]
  · intro hd
    simp [HookV1.startListening, hd]
  · intro hp he hw ht
    cases hr : s1.isRecordingRef <;> cases hmd : env1.mediaDevicesAvailable <;>
      simp [HookV1.startListening, HookV1.stopListening,
            HookV1.startAudioRecording, HookV1.startSpeechRecognition,
            HookV1.startWebSpeechRecognition, hp, he, hw, ht, hr, hmd, errorsOf]

/-- Witness: C5's amended theorem instantiated at a denied state of the
initialize-based variant and at a granted idle state of the first variant
with a throwing web start call. -/
theorem start_error_reporting_witness :
    (HookV2.startListening false envSimOnlyV2 sampleDeniedV2
      = (sampleDeniedV2, [Action.errorEmitted "Microphone permission not granted"]))
    ∧ ((HookV1.startListening envWebThrows sampleIdleV1).1.isListening = true
       ∧ (HookV1.startListening envWebThrows sampleIdleV1).1.isRecordingRef = true
       ∧ errorsOf (HookV1.startListening envWebThrows sampleIdleV1).2
           = ["Failed to start speech recognition. Please try again."]) :=
  ⟨(start_error_reporting false envSimOnlyV2 envWebThrows sampleDeniedV2
      sampleIdleV1).1 rfl,
   (start_error_reporting false envSimOnlyV2 envWebThrows sampleDeniedV2
      sampleIdleV1).2.2.2.2 rfl rfl rfl rfl⟩

/-- Counterexample to C6 as stated: in the first hook variant the provider
chain is probed inside the start call and has no simulated terminal
fallback — with no expo module and no web speech API, startListening reports
an unsupported-speech error, no provider begins (no recognition object is
held and no session-begun event is emitted), and the UI is left without a
capture mechanism. -/
theorem provider_chain_cex :
    (HookV1.startListening envNoProviders sampleIdleV1).2
      = [Action.errorEmitted "Speech recognition is not supported. Please use a device with speech recognition capabilities or try the web version in Chrome/Safari."]
    ∧ (HookV1.startListening envNoProviders sampleIdleV1).1.recognitionRef = false
    ∧ Action.sessionBegun ∉ (HookV1.startListening envNoProviders sampleIdleV1).2 := by
  refine ⟨rfl, rfl, by decide⟩

/-- C6 as amended: in the initialize-based hook variant, provider selection
is a strict priority chain evaluated once at initialization — expo native,
then browser, then simulated — every initialization outcome grants
permission, a later start call dispatches on the stored provider without
re-probing (the stored method never changes while permission is determined),
and the simulated provider never fails, so that variant is never left
without a capture mechanism.  In the first variant the chain (native, then
browser) is re-probed on every start call and has no simulated fallback:
when neither backend is available the call reports an unsupported-speech
error and no provider begins. -/
theorem provider_chain_resolution (pf : Bool) (env2 : HookV2.InitEnv)
    (env1 : HookV1.Env) (s2 : HookV2.BState) (s1 : HookV1.WebState) :
    (HookV2.initializeSpeechRecognition env2 s2).hasPermission = some true
    ∧ (HookV2.initializeSpeechRecognition env2 s2).speechMethod
        = (if env2.expoAvailable && env2.expoGranted then HookV2.SpeechMethod.expo
           else if env2.platformIsWeb && env2.webSpeechAvailable then HookV2.SpeechMethod.web
           else HookV2.SpeechMethod.simulation)
    ∧ (s2.hasPermission = some true →
        (HookV2.startListening pf env2 s2).1.speechMethod = s2.speechMethod)
    ∧ (s2.hasPermission = some true →
        s2.speechMethod = HookV2.SpeechMethod.simulation →
        (HookV2.startListening pf env2 s2).1.isListening = true
        ∧ (HookV2.startListening pf env2 s2).1.isRecordingRef = true)
    ∧ (s1.hasPermission = some true → env1.expoAvailable = false →
        env1.webSpeechAvailable = false →
        errorsOf (HookV1.startListening env1 s1).2
          = ["Speech recognition is not supported. Please use a device with speech recognition capabilities or try the web version in Chrome/Safari."]
        ∧ Action.sessionBegun ∉ (HookV1.startListening env1 s1).2) := by
  refine ⟨?_, ?_, ?_, ?_, ?_⟩
  · simp [HookV2.initializeSpeechRecognition]
    split_ifs <;> rfl
  · simp [HookV2.initializeSpeechRecognition]
    split_ifs <;> rfl
  · intro hp
    cases hr : s2.isRecordingRef <;> cases hm : s2.speechMethod <;>
      cases hpf : pf <;>
      simp [HookV2.startListening, HookV2.stopListening,
            HookV2.startMobileSpeechRecognition, hp, hr, hm]
  · intro hp hm
    exact ⟨(startListening_sim_state pf env2 s2 hp hm).2.1,
           (startListening_sim_state pf env2 s2 hp hm).2.2⟩
  · intro hp he hw
    cases hr : s1.isRecordingRef <;> cases hmd : env1.mediaDevicesAvailable <;>
      simp [HookV1.startListening, HookV1.stopListening,
            HookV1.startAudioRecording, HookV1.startSpeechRecognition,
            HookV1.startWebSpeechRecognition, hp, he, hw, hr, hmd, errorsOf]

/-- Witness: C6's amended theorem instantiated at the simulation-only
environment and concrete idle states. -/
theorem provider_chain_resolution_witness :
    (HookV2.initializeSpeechRecognition envSimOnlyV2 sampleSimV2).hasPermission
      = some true
    ∧ ((HookV2.startListening false envSimOnlyV2 sampleSimV2).1.isListening = true
       ∧ (HookV2.startListening false envSimOnlyV2 sampleSimV2).1.isRecordingRef = true) :=
  ⟨(provider_chain_resolution false envSimOnlyV2 envNoProviders sampleSimV2
      sampleIdleV1).1,
   (provider_chain_resolution false envSimOnlyV2 envNoProviders sampleSimV2
      sampleIdleV1).2.2.2.1 rfl rfl⟩

/-- Counterexample to C7 as stated: the second hook variant's web `onresult`
handler never stops the session, whatever the continuous configuration (the
handler does not even consult it) — on a final result arriving in a
listening state it emits the result with the default confidence and leaves
both the recording guard and the listening flag set, so the session is not
stopped immediately after the first final recognition result. -/
theorem one_result_per_session_cex :
    (HookV2.webOnResult "hello" none sampleWebListeningV2).1.isRecordingRef = true
    ∧ (HookV2.webOnResult "hello" none sampleWebListeningV2).1.isListening = true
    ∧ (HookV2.webOnResult "hello" none sampleWebListeningV2).2
        = [Action.resultEmitted "hello" (0.9 : Rat)] := by
  refine ⟨rfl, rfl, ?_⟩
  simp [HookV2.webOnResult, confidenceOr]

/-- C7 as amended: when continuous is false, the first variant's web result
handler stops the session immediately after a final result (emitting exactly
that one result and the stop event) and ignores interim results, and in the
simulation-only variant every operation that emits a result leaves the
session stopped while a stopped session's timer emits nothing — so there at
most one result is delivered per session and none after stop.  The second
variant's web result handler, by contrast, emits a final result without
changing the recording guard; its session ends only when the provider's end
event fires, which clears both flags. -/
theorem one_result_per_session :
    (∀ (tr : String) (conf : Option Rat) (s : HookV1.WebState),
      s.isRecordingRef = true →
        (HookV1.webOnResult false true tr conf s).1.isRecordingRef = false
        ∧ (HookV1.webOnResult false true tr conf s).2
            = [Action.resultEmitted tr.trim (confidenceOr conf),
               Action.sessionStopped])
    ∧ (∀ (continuous : Bool) (tr : String) (conf : Option Rat)
        (s : HookV1.WebState),
        HookV1.webOnResult continuous false tr conf s = (s, []))
    ∧ (∀ (s : HookV3.SimState) (op : HookV3.HookOp),
        resultsOf (HookV3.step false s op).2 ≠ [] →
          (HookV3.step false s op).1.isRecordingRef = false)
    ∧ (∀ (continuous : Bool) (rand : Nat) (s : HookV3.SimState),
        s.isRecordingRef = false →
          resultsOf (HookV3.simTimeoutFire continuous rand s).2 = [])
    ∧ (∀ (ft : String) (conf : Option Rat) (s : HookV2.BState),
        (HookV2.webOnResult ft conf s).1.isRecordingRef = s.isRecordingRef)
    ∧ (∀ s : HookV2.BState,
        (HookV2.webOnEnd s).isRecordingRef = false
        ∧ (HookV2.webOnEnd s).isListening = false) := by
  refine ⟨?_, ?_, ?_, ?_, ?_, ?_⟩
  · intro tr conf s hr
    simp [HookV1.webOnResult, HookV1.stopListening, hr]
  · intro continuous tr conf s
    simp [HookV1.webOnResult]
  · intro s op hne
    cases op with
    | startCall =>
        by_cases hp : s.hasPermission = some true
        · cases hr : s.isRecordingRef <;>
            simp [HookV3.step, HookV3.startListening, HookV3.stopListening,
                  HookV3.simulateSpeechRecognition, hp, hr, resultsOf] at hne ⊢
        · simp [HookV3.step, HookV3.startListening, hp, resultsOf] at hne
    | stopCall =>
        cases hr : s.isRecordingRef <;>
          simp [HookV3.step, HookV3.stopListening, hr, resultsOf] at hne ⊢
    | timerFire rand =>
        rcases ht : s.timeoutRef with _ | d
        · simp [HookV3.step, HookV3.simTimeoutFire, ht, resultsOf] at hne
        · cases hr : s.isRecordingRef
          · simp [HookV3.step, HookV3.simTimeoutFire, ht, hr, resultsOf] at hne
          · simp [HookV3.step, HookV3.simTimeoutFire, HookV3.stopListening,
                  ht, hr, resultsOf]
  · intro continuous rand s hr
    rcases ht : s.timeoutRef with _ | d <;>
      simp [HookV3.simTimeoutFire, ht, hr, resultsOf]
  · intro ft conf s
    by_cases hf : ft = "" <;> simp [HookV2.webOnResult, hf]
  · intro s
    simp [HookV2.webOnEnd]

/-- Witness: C7's amended theorem instantiated on a final result delivered
in a concrete listening state of the first hook variant with continuous
false. -/
theorem one_result_per_session_witness :
    (HookV1.webOnResult false true "hi" none sampleListeningV1).1.isRecordingRef
      = false
    ∧ (HookV1.webOnResult false true "hi" none sampleListeningV1).2
        = [Action.resultEmitted (String.trim "hi") (confidenceOr none),
           Action.sessionStopped] :=
  one_result_per_session.1 "hi" none sampleListeningV1 rfl

/-- Counterexample to C9 as stated: the second screen variant's microphone
tap handler has no permission guard at all — while not listening (hence also
when permission is explicitly denied) it sets the recording flag and toggles
the lifecycle controller, and shows no permission-required message. -/
theorem mic_press_denied_cex :
    Screen.ScreenV2.handleMicPress false
      = [Screen.Effect.setStatus "Listening...", Screen.Effect.setRecording true,
         Screen.Effect.toggleLifecycle]
    ∧ Screen.Effect.toggleLifecycle ∈ Screen.ScreenV2.handleMicPress false
    ∧ Screen.Effect.setStatus "Microphone permission required"
        ∉ Screen.ScreenV2.handleMicPress false := by
  refine ⟨rfl, by decide, by decide⟩

/-- C9 as amended: in the first screen variant a microphone tap while not
listening with permission explicitly denied only sets the
permission-required status — it neither toggles the lifecycle controller nor
dispatches any recording-flag change — and in every other case the tap
toggles the lifecycle controller and reflects the new state into the
external recording-state flag; the second variant's handler has no
permission guard and always toggles and sets the flag (in both variants the
microphone button itself is rendered disabled when permission is denied). -/
theorem mic_press_behavior :
    Screen.ScreenV1.handleMicPress false (some false)
      = [Screen.Effect.setStatus "Microphone permission required"]
    ∧ Screen.Effect.toggleLifecycle ∉ Screen.ScreenV1.handleMicPress false (some false)
    ∧ (∀ b : Bool,
        Screen.Effect.setRecording b ∉ Screen.ScreenV1.handleMicPress false (some false))
    ∧ (∀ p : Option Bool, p ≠ some false →
        Screen.Effect.toggleLifecycle ∈ Screen.ScreenV1.handleMicPress false p
        ∧ Screen.Effect.setRecording true ∈ Screen.ScreenV1.handleMicPress false p)
    ∧ (∀ p : Option Bool,
        Screen.Effect.toggleLifecycle ∈ Screen.ScreenV1.handleMicPress true p
        ∧ Screen.Effect.setRecording false ∈ Screen.ScreenV1.handleMicPress true p)
    ∧ (∀ l : Bool,
        Screen.Effect.toggleLifecycle ∈ Screen.ScreenV2.handleMicPress l
        ∧ Screen.Effect.setRecording (!l) ∈ Screen.ScreenV2.handleMicPress l)
    ∧ Screen.micButtonDisabled (some false) = true := by
  refine ⟨rfl, by decide, ?_, ?_, ?_, ?_, rfl⟩
  · intro b
    cases b <;> decide
  · intro p hp
    simp [Screen.ScreenV1.handleMicPress, hp]
  · intro p
    simp [Screen.ScreenV1.handleMicPress]
  · intro l
    cases l <;> simp [Screen.ScreenV2.handleMicPress]

/-- Witness: C9's amended theorem instantiated on a tap while not listening
with permission granted. -/
theorem mic_press_behavior_witness :
    Screen.Effect.toggleLifecycle ∈ Screen.ScreenV1.handleMicPress false (some true)
    ∧ Screen.Effect.setRecording true ∈ Screen.ScreenV1.handleMicPress false (some true) :=
  mic_press_behavior.2.2.2.1 (some true) (by decide)

end MedConscious
